import Mathlib

/-
Verification of the govship flattening adapter (src/flattened.c, src/flattened.h).

The repository is a compatibility shim: each `*_flat` function receives the
per-plane pointers and strides of up to two images as individual scalar
arguments, rebuilds the pointer/stride arrays the wrapped Vship library
expects on the stack, and returns the wrapped entry point's status verbatim.

Embedding choices:
  * a C pointer (`uint8_t*`, `double*`, `Vship_ButteraugliScore*`) is `Ptr`,
    an `Option Nat` byte address where `none` models NULL;
  * a stride (`int64_t`) is `Int` (the adapter performs no arithmetic on it,
    so no wraparound can be observed at this layer);
  * the wrapped library lives outside this repository (VshipAPI.h), so it is
    an abstract record `VshipLib` of entry-point functions over abstract
    handler types and an abstract world `W` that carries every memory
    location the library may read or write (score slots, destination maps,
    internal handler state); each entry point returns its status together
    with the updated world;
  * the handler argument of each `*_flat` function is a pointer that the C
    code dereferences (`*handler`); it is modelled as `Option` of the handler
    value, and dereferencing NULL — undefined behaviour in C — makes the
    whole call return `none`, so a `*_flat` function yields
    `Option (Vship_Exception × W)`.
-/

/-- Modelled from the spec: `Vship_Exception`, the status enumeration owned by
the external wrapped library (VshipAPI.h is not part of this repository).
The spec names invalid-handle, device/runtime failure and out-of-range
dimensions as typical kinds; further codes are abstracted by `OtherError`. -/
inductive Vship_Exception : Type where
  | NoError : Vship_Exception
  | BadHandler : Vship_Exception
  | DeviceError : Vship_Exception
  | OutOfRange : Vship_Exception
  | OtherError : Nat → Vship_Exception
  deriving DecidableEq, Repr

/-- A raw C pointer: a byte address, with `none` modelling NULL. -/
abbrev Ptr : Type := Option Nat

/-- An array of three per-plane pointers (`const uint8_t* [3]`). -/
abbrev Planes : Type := Fin 3 → Ptr

/-- An array of three per-plane line sizes (`int64_t [3]`). -/
abbrev Strides : Type := Fin 3 → Int

/-- Modelled from the spec: the wrapped library's four native array-based
entry points (declared in the external VshipAPI.h, not in this repository).
`S`, `B`, `C` are the opaque handler value types (`Vship_SSIMU2Handler`,
`Vship_ButteraugliHandler`, `Vship_CVVDPHandler`) and `W` the world of
every memory location the library may touch; each entry point returns the
status code together with the updated world. -/
structure VshipLib (S B C W : Type) : Type where
  Vship_ComputeSSIMU2 :
    S → Ptr → Planes → Planes → Strides → Strides → W → Vship_Exception × W
  Vship_ComputeButteraugli :
    B → Ptr → Ptr → Int → Planes → Planes → Strides → Strides → W →
      Vship_Exception × W
  Vship_LoadTemporalCVVDP :
    C → Planes → Planes → Strides → Strides → W → Vship_Exception × W
  Vship_ComputeCVVDP :
    C → Ptr → Ptr → Int → Planes → Planes → Strides → Strides → W →
      Vship_Exception × W

variable {S B C W : Type}

/-- Translation of `ComputeSSIMU2_flat` (src/flattened.c lines 3-17): build
`src`, `dst`, `srcLine`, `dstLine` on the stack and tail-call
`Vship_ComputeSSIMU2(*handler, score, src, dst, srcLine, dstLine)`.
A `none` handler pointer models NULL: the dereference has no defined
result, so the call yields `none`. -/
def ComputeSSIMU2_flat (lib : VshipLib S B C W) (handler : Option S)
    (score : Ptr)
    (s0 s1 s2 : Ptr) (ls0 ls1 ls2 : Int)
    (d0 d1 d2 : Ptr) (ld0 ld1 ld2 : Int) (w : W) :
    Option (Vship_Exception × W) :=
  let src : Planes := ![s0, s1, s2]
  let dst : Planes := ![d0, d1, d2]
  let srcLine : Strides := ![ls0, ls1, ls2]
  let dstLine : Strides := ![ld0, ld1, ld2]
  match handler with
  | none => none
  | some h => some (lib.Vship_ComputeSSIMU2 h score src dst srcLine dstLine w)

/-- Translation of `ComputeButteraugli_flat` (src/flattened.c lines 19-35):
build `srcp1`, `srcp2`, `lineSize`, `lineSize2` and tail-call
`Vship_ComputeButteraugli(*handler, score, dstp, dststride, srcp1, srcp2,
lineSize, lineSize2)`. -/
def ComputeButteraugli_flat (lib : VshipLib S B C W) (handler : Option B)
    (score : Ptr) (dstp : Ptr) (dststride : Int)
    (s0 s1 s2 : Ptr) (d0 d1 d2 : Ptr)
    (ls0 ls1 ls2 : Int) (ld0 ld1 ld2 : Int) (w : W) :
    Option (Vship_Exception × W) :=
  let srcp1 : Planes := ![s0, s1, s2]
  let srcp2 : Planes := ![d0, d1, d2]
  let lineSize : Strides := ![ls0, ls1, ls2]
  let lineSize2 : Strides := ![ld0, ld1, ld2]
  match handler with
  | none => none
  | some h =>
      some (lib.Vship_ComputeButteraugli h score dstp dststride srcp1 srcp2
        lineSize lineSize2 w)

/-- Translation of `LoadTemporalCVVDP_flat` (src/flattened.c lines 37-49):
build `srcp1`, `srcp2`, `lineSize`, `lineSize2` and tail-call
`Vship_LoadTemporalCVVDP(*handler, srcp1, srcp2, lineSize, lineSize2)`. -/
def LoadTemporalCVVDP_flat (lib : VshipLib S B C W) (handler : Option C)
    (s0 s1 s2 : Ptr) (d0 d1 d2 : Ptr)
    (ls0 ls1 ls2 : Int) (ld0 ld1 ld2 : Int) (w : W) :
    Option (Vship_Exception × W) :=
  let srcp1 : Planes := ![s0, s1, s2]
  let srcp2 : Planes := ![d0, d1, d2]
  let lineSize : Strides := ![ls0, ls1, ls2]
  let lineSize2 : Strides := ![ld0, ld1, ld2]
  match handler with
  | none => none
  | some h =>
      some (lib.Vship_LoadTemporalCVVDP h srcp1 srcp2 lineSize lineSize2 w)

/-- Translation of `ComputeCVVDP_flat` (src/flattened.c lines 51-66): build
`srcp1`, `srcp2`, `lineSize`, `lineSize2` and tail-call
`Vship_ComputeCVVDP(*handler, score, dstp, dststride, srcp1, srcp2,
lineSize, lineSize2)`. -/
def ComputeCVVDP_flat (lib : VshipLib S B C W) (handler : Option C)
    (score : Ptr) (dstp : Ptr) (dststride : Int)
    (s0 s1 s2 : Ptr) (d0 d1 d2 : Ptr)
    (ls0 ls1 ls2 : Int) (ld0 ld1 ld2 : Int) (w : W) :
    Option (Vship_Exception × W) :=
  let srcp1 : Planes := ![s0, s1, s2]
  let srcp2 : Planes := ![d0, d1, d2]
  let lineSize : Strides := ![ls0, ls1, ls2]
  let lineSize2 : Strides := ![ld0, ld1, ld2]
  match handler with
  | none => none
  | some h =>
      some (lib.Vship_ComputeCVVDP h score dstp dststride srcp1 srcp2
        lineSize lineSize2 w)

/-- A function out of `Fin 3` is determined by its three values. -/
theorem fin3_eta {α : Type} (f : Fin 3 → α) : f = ![f 0, f 1, f 2] := by
  funext i
  fin_cases i <;> rfl

/-- A concrete instantiation of the wrapped library used to exhibit
satisfiable hypotheses: handler values are `Nat` (0 playing the part of a
destroyed / zero-initialized handler that the library rejects with
`BadHandler`), and the world is a `List Ptr` event log.  The SSIMU2 and
Butteraugli compute entry points overwrite the log with the first
source-plane pointer; the temporal load and the CVVDP compute append it, so
the log is order-sensitive. -/
def demoLib : VshipLib Nat Nat Nat (List Ptr) where
  Vship_ComputeSSIMU2 := fun h _score src _dst _sl _dl _w =>
    (if h = 0 then .BadHandler else .NoError, [src 0])
  Vship_ComputeButteraugli := fun h _score _dstp _ds src _dst _l1 _l2 _w =>
    (if h = 0 then .BadHandler else .NoError, [src 0])
  Vship_LoadTemporalCVVDP := fun h src _dst _l1 _l2 w =>
    (if h = 0 then .BadHandler else .NoError, w ++ [src 0])
  Vship_ComputeCVVDP := fun h _score _dstp _ds src _dst _l1 _l2 w =>
    (if h = 0 then .BadHandler else .NoError, w ++ [src 0])

/-- C1: for every handler, score location, plane pointers and strides, each
flattened operation returns the same status and produces the same world
(hence the same score/map contents) as calling the corresponding native
array-based entry point directly with pointer and stride arrays that are
logically equivalent (componentwise equal) to the supplied scalars. -/
theorem flattened_transparent (lib : VshipLib S B C W) (hS : S) (hB : B)
    (hC : C) (score scoreB scoreC dstpB dstpC : Ptr)
    (dststrideB dststrideC : Int)
    (s0 s1 s2 d0 d1 d2 : Ptr) (ls0 ls1 ls2 ld0 ld1 ld2 : Int)
    (src dst : Planes) (srcLine dstLine : Strides) (w : W)
    (hsrc : src 0 = s0 ∧ src 1 = s1 ∧ src 2 = s2)
    (hdst : dst 0 = d0 ∧ dst 1 = d1 ∧ dst 2 = d2)
    (hsl : srcLine 0 = ls0 ∧ srcLine 1 = ls1 ∧ srcLine 2 = ls2)
    (hdl : dstLine 0 = ld0 ∧ dstLine 1 = ld1 ∧ dstLine 2 = ld2) :
    ComputeSSIMU2_flat lib (some hS) score s0 s1 s2 ls0 ls1 ls2
        d0 d1 d2 ld0 ld1 ld2 w
      = some (lib.Vship_ComputeSSIMU2 hS score src dst srcLine dstLine w) ∧
    ComputeButteraugli_flat lib (some hB) scoreB dstpB dststrideB
        s0 s1 s2 d0 d1 d2 ls0 ls1 ls2 ld0 ld1 ld2 w
      = some (lib.Vship_ComputeButteraugli hB scoreB dstpB dststrideB
          src dst srcLine dstLine w) ∧
    LoadTemporalCVVDP_flat lib (some hC) s0 s1 s2 d0 d1 d2
        ls0 ls1 ls2 ld0 ld1 ld2 w
      = some (lib.Vship_LoadTemporalCVVDP hC src dst srcLine dstLine w) ∧
    ComputeCVVDP_flat lib (some hC) scoreC dstpC dststrideC
        s0 s1 s2 d0 d1 d2 ls0 ls1 ls2 ld0 ld1 ld2 w
      = some (lib.Vship_ComputeCVVDP hC scoreC dstpC dststrideC
          src dst srcLine dstLine w) := by
  obtain ⟨hs0, hs1, hs2⟩ := hsrc
  obtain ⟨hd0, hd1, hd2⟩ := hdst
  obtain ⟨hl0, hl1, hl2⟩ := hsl
  obtain ⟨hm0, hm1, hm2⟩ := hdl
  have e1 : src = ![s0, s1, s2] := by
    rw [fin3_eta src, hs0, hs1, hs2]
  have e2 : dst = ![d0, d1, d2] := by
    rw [fin3_eta dst, hd0, hd1, hd2]
  have e3 : srcLine = ![ls0, ls1, ls2] := by
    rw [fin3_eta srcLine, hl0, hl1, hl2]
  have e4 : dstLine = ![ld0, ld1, ld2] := by
    rw [fin3_eta dstLine, hm0, hm1, hm2]
  subst e1 e2 e3 e4
  exact ⟨rfl, rfl, rfl, rfl⟩

/-- Witness for C1 at a concrete library, handler, planes, strides and
world, with the componentwise-equivalence hypotheses discharged by `rfl`. -/
theorem flattened_transparent_witness :
    ComputeSSIMU2_flat demoLib (some 1) (some 0) (some 1) (some 2) (some 3)
        4 5 6 (some 7) (some 8) (some 9) 10 11 12 []
      = some (demoLib.Vship_ComputeSSIMU2 1 (some 0)
          ![some 1, some 2, some 3] ![some 7, some 8, some 9]
          ![4, 5, 6] ![10, 11, 12] []) :=
  (flattened_transparent demoLib 1 1 1 (some 0) (some 0) (some 0) (some 20)
    (some 21) 2 2 (some 1) (some 2) (some 3) (some 7) (some 8) (some 9)
    4 5 6 10 11 12 ![some 1, some 2, some 3] ![some 7, some 8, some 9]
    ![4, 5, 6] ![10, 11, 12] [] ⟨rfl, rfl, rfl⟩ ⟨rfl, rfl, rfl⟩
    ⟨rfl, rfl, rfl⟩ ⟨rfl, rfl, rfl⟩).1

/-- C2: for every wrapped library (hence every status it may return), every
handler value and every input, each flattened operation's status is exactly
the status of the single wrapped call it makes — no branch of the adapter
translates, wraps or suppresses it. -/
theorem flattened_status_verbatim (lib : VshipLib S B C W) (hS : S) (hB : B)
    (hC : C) (score scoreB scoreC dstpB dstpC : Ptr)
    (dststrideB dststrideC : Int)
    (s0 s1 s2 d0 d1 d2 : Ptr) (ls0 ls1 ls2 ld0 ld1 ld2 : Int) (w : W) :
    (ComputeSSIMU2_flat lib (some hS) score s0 s1 s2 ls0 ls1 ls2
        d0 d1 d2 ld0 ld1 ld2 w).map Prod.fst
      = some (lib.Vship_ComputeSSIMU2 hS score ![s0, s1, s2] ![d0, d1, d2]
          ![ls0, ls1, ls2] ![ld0, ld1, ld2] w).1 ∧
    (ComputeButteraugli_flat lib (some hB) scoreB dstpB dststrideB
        s0 s1 s2 d0 d1 d2 ls0 ls1 ls2 ld0 ld1 ld2 w).map Prod.fst
      = some (lib.Vship_ComputeButteraugli hB scoreB dstpB dststrideB
          ![s0, s1, s2] ![d0, d1, d2] ![ls0, ls1, ls2] ![ld0, ld1, ld2] w).1 ∧
    (LoadTemporalCVVDP_flat lib (some hC) s0 s1 s2 d0 d1 d2
        ls0 ls1 ls2 ld0 ld1 ld2 w).map Prod.fst
      = some (lib.Vship_LoadTemporalCVVDP hC ![s0, s1, s2] ![d0, d1, d2]
          ![ls0, ls1, ls2] ![ld0, ld1, ld2] w).1 ∧
    (ComputeCVVDP_flat lib (some hC) scoreC dstpC dststrideC
        s0 s1 s2 d0 d1 d2 ls0 ls1 ls2 ld0 ld1 ld2 w).map Prod.fst
      = some (lib.Vship_ComputeCVVDP hC scoreC dstpC dststrideC
          ![s0, s1, s2] ![d0, d1, d2] ![ls0, ls1, ls2] ![ld0, ld1, ld2] w).1 :=
  ⟨rfl, rfl, rfl, rfl⟩

/-- C3: in every call to any of the four flattened operations, the pointer
arrays handed to the wrapped library hold plane pointer `i` at index `i`
(for both the source and the distorted image) and the stride arrays hold the
stride supplied for plane `i` at index `i`, keeping each stride paired with
its plane buffer. -/
theorem flattened_arrays_plane_indexed (lib : VshipLib S B C W) (hS : S)
    (hB : B) (hC : C) (score scoreB scoreC dstpB dstpC : Ptr)
    (dststrideB dststrideC : Int)
    (s0 s1 s2 d0 d1 d2 : Ptr) (ls0 ls1 ls2 ld0 ld1 ld2 : Int) (w : W) :
    ((![s0, s1, s2] : Planes) 0 = s0 ∧ (![s0, s1, s2] : Planes) 1 = s1 ∧
     (![s0, s1, s2] : Planes) 2 = s2) ∧
    ((![d0, d1, d2] : Planes) 0 = d0 ∧ (![d0, d1, d2] : Planes) 1 = d1 ∧
     (![d0, d1, d2] : Planes) 2 = d2) ∧
    ((![ls0, ls1, ls2] : Strides) 0 = ls0 ∧
     (![ls0, ls1, ls2] : Strides) 1 = ls1 ∧
     (![ls0, ls1, ls2] : Strides) 2 = ls2) ∧
    ((![ld0, ld1, ld2] : Strides) 0 = ld0 ∧
     (![ld0, ld1, ld2] : Strides) 1 = ld1 ∧
     (![ld0, ld1, ld2] : Strides) 2 = ld2) ∧
    ComputeSSIMU2_flat lib (some hS) score s0 s1 s2 ls0 ls1 ls2
        d0 d1 d2 ld0 ld1 ld2 w
      = some (lib.Vship_ComputeSSIMU2 hS score ![s0, s1, s2] ![d0, d1, d2]
          ![ls0, ls1, ls2] ![ld0, ld1, ld2] w) ∧
    ComputeButteraugli_flat lib (some hB) scoreB dstpB dststrideB
        s0 s1 s2 d0 d1 d2 ls0 ls1 ls2 ld0 ld1 ld2 w
      = some (lib.Vship_ComputeButteraugli hB scoreB dstpB dststrideB
          ![s0, s1, s2] ![d0, d1, d2] ![ls0, ls1, ls2] ![ld0, ld1, ld2] w) ∧
    LoadTemporalCVVDP_flat lib (some hC) s0 s1 s2 d0 d1 d2
        ls0 ls1 ls2 ld0 ld1 ld2 w
      = some (lib.Vship_LoadTemporalCVVDP hC ![s0, s1, s2] ![d0, d1, d2]
          ![ls0, ls1, ls2] ![ld0, ld1, ld2] w) ∧
    ComputeCVVDP_flat lib (some hC) scoreC dstpC dststrideC
        s0 s1 s2 d0 d1 d2 ls0 ls1 ls2 ld0 ld1 ld2 w
      = some (lib.Vship_ComputeCVVDP hC scoreC dstpC dststrideC
          ![s0, s1, s2] ![d0, d1, d2] ![ls0, ls1, ls2] ![ld0, ld1, ld2] w) :=
  ⟨⟨rfl, rfl, rfl⟩, ⟨rfl, rfl, rfl⟩, ⟨rfl, rfl, rfl⟩, ⟨rfl, rfl, rfl⟩,
   rfl, rfl, rfl, rfl⟩

/-- One invocation of a flattened operation, with the handler given as the
value the (valid, non-null) handler pointer refers to, together with all the
scalar plane/stride arguments of the C signature. -/
inductive FlatCall (S B C : Type) : Type where
  | ssimu2 (h : S) (score : Ptr)
      (s0 s1 s2 : Ptr) (ls0 ls1 ls2 : Int)
      (d0 d1 d2 : Ptr) (ld0 ld1 ld2 : Int) : FlatCall S B C
  | butteraugli (h : B) (score dstp : Ptr) (dststride : Int)
      (s0 s1 s2 d0 d1 d2 : Ptr)
      (ls0 ls1 ls2 ld0 ld1 ld2 : Int) : FlatCall S B C
  | loadTemporal (h : C) (s0 s1 s2 d0 d1 d2 : Ptr)
      (ls0 ls1 ls2 ld0 ld1 ld2 : Int) : FlatCall S B C
  | computeCVVDP (h : C) (score dstp : Ptr) (dststride : Int)
      (s0 s1 s2 d0 d1 d2 : Ptr)
      (ls0 ls1 ls2 ld0 ld1 ld2 : Int) : FlatCall S B C

/-- Run one call through the flattening adapter. -/
def runFlat1 (lib : VshipLib S B C W) : FlatCall S B C → W →
    Option (Vship_Exception × W)
  | .ssimu2 h score s0 s1 s2 ls0 ls1 ls2 d0 d1 d2 ld0 ld1 ld2, w =>
      ComputeSSIMU2_flat lib (some h) score s0 s1 s2 ls0 ls1 ls2
        d0 d1 d2 ld0 ld1 ld2 w
  | .butteraugli h score dstp ds s0 s1 s2 d0 d1 d2 ls0 ls1 ls2 ld0 ld1 ld2,
    w =>
      ComputeButteraugli_flat lib (some h) score dstp ds s0 s1 s2 d0 d1 d2
        ls0 ls1 ls2 ld0 ld1 ld2 w
  | .loadTemporal h s0 s1 s2 d0 d1 d2 ls0 ls1 ls2 ld0 ld1 ld2, w =>
      LoadTemporalCVVDP_flat lib (some h) s0 s1 s2 d0 d1 d2
        ls0 ls1 ls2 ld0 ld1 ld2 w
  | .computeCVVDP h score dstp ds s0 s1 s2 d0 d1 d2 ls0 ls1 ls2 ld0 ld1 ld2,
    w =>
      ComputeCVVDP_flat lib (some h) score dstp ds s0 s1 s2 d0 d1 d2
        ls0 ls1 ls2 ld0 ld1 ld2 w

/-- Run one call directly against the wrapped library's native array-based
entry point, with the arrays assembled from the same scalars. -/
def runNative1 (lib : VshipLib S B C W) : FlatCall S B C → W →
    Vship_Exception × W
  | .ssimu2 h score s0 s1 s2 ls0 ls1 ls2 d0 d1 d2 ld0 ld1 ld2, w =>
      lib.Vship_ComputeSSIMU2 h score ![s0, s1, s2] ![d0, d1, d2]
        ![ls0, ls1, ls2] ![ld0, ld1, ld2] w
  | .butteraugli h score dstp ds s0 s1 s2 d0 d1 d2 ls0 ls1 ls2 ld0 ld1 ld2,
    w =>
      lib.Vship_ComputeButteraugli h score dstp ds ![s0, s1, s2]
        ![d0, d1, d2] ![ls0, ls1, ls2] ![ld0, ld1, ld2] w
  | .loadTemporal h s0 s1 s2 d0 d1 d2 ls0 ls1 ls2 ld0 ld1 ld2, w =>
      lib.Vship_LoadTemporalCVVDP h ![s0, s1, s2] ![d0, d1, d2]
        ![ls0, ls1, ls2] ![ld0, ld1, ld2] w
  | .computeCVVDP h score dstp ds s0 s1 s2 d0 d1 d2 ls0 ls1 ls2 ld0 ld1 ld2,
    w =>
      lib.Vship_ComputeCVVDP h score dstp ds ![s0, s1, s2] ![d0, d1, d2]
        ![ls0, ls1, ls2] ![ld0, ld1, ld2] w

/-- Run a sequence of calls through the flattening adapter, collecting the
statuses in order and threading the world. -/
def runFlat (lib : VshipLib S B C W) : List (FlatCall S B C) → W →
    Option (List Vship_Exception × W)
  | [], w => some ([], w)
  | c :: cs, w =>
      (runFlat1 lib c w).bind fun r =>
        (runFlat lib cs r.2).map fun rest => (r.1 :: rest.1, rest.2)

/-- Run a sequence of calls directly against the wrapped library's native
entry points, collecting the statuses in order and threading the world. -/
def runNative (lib : VshipLib S B C W) : List (FlatCall S B C) → W →
    List Vship_Exception × W
  | [], w => ([], w)
  | c :: cs, w =>
      let r := runNative1 lib c w
      let rest := runNative lib cs r.2
      (r.1 :: rest.1, rest.2)

theorem runFlat1_eq (lib : VshipLib S B C W) (c : FlatCall S B C) (w : W) :
    runFlat1 lib c w = some (runNative1 lib c w) := by
  cases c <;> rfl

theorem runFlat_eq (lib : VshipLib S B C W) (calls : List (FlatCall S B C))
    (w : W) : runFlat lib calls w = some (runNative lib calls w) := by
  induction calls generalizing w with
  | nil => rfl
  | cons c cs ih => simp [runFlat, runNative, runFlat1_eq, ih]

/-- C4: the adapter retains nothing across calls: over any sequence of
flattened calls, from any starting world, the statuses and the final world
are exactly those of the corresponding sequence of direct native calls — so
every state the adapter touches flows through the wrapped library's world,
and no caller-supplied pointer survives a call in adapter-held state (the
local arrays exist only inside the one call that builds them). -/
theorem flattened_no_pointer_retention (lib : VshipLib S B C W)
    (calls : List (FlatCall S B C)) (w : W) :
    runFlat lib calls w = some (runNative lib calls w) :=
  runFlat_eq lib calls w

/-- C5: if the wrapped library's single-pass (SSIMU2) and composite
(Butteraugli) compute calls are themselves idempotent at the given
arguments — a second identical native call returns the same status and
leaves the same world, as the spec requires of a freshly constructed
handler — then calling the flattened operation twice with the same
unchanged inputs yields identical results (status and output world) both
times. -/
theorem flattened_compute_idempotent (lib : VshipLib S B C W) (hS : S)
    (hB : B) (score scoreB dstpB : Ptr) (dststrideB : Int)
    (s0 s1 s2 d0 d1 d2 : Ptr) (ls0 ls1 ls2 ld0 ld1 ld2 : Int) (w : W)
    (hs : lib.Vship_ComputeSSIMU2 hS score ![s0, s1, s2] ![d0, d1, d2]
            ![ls0, ls1, ls2] ![ld0, ld1, ld2]
            (lib.Vship_ComputeSSIMU2 hS score ![s0, s1, s2] ![d0, d1, d2]
              ![ls0, ls1, ls2] ![ld0, ld1, ld2] w).2
          = lib.Vship_ComputeSSIMU2 hS score ![s0, s1, s2] ![d0, d1, d2]
              ![ls0, ls1, ls2] ![ld0, ld1, ld2] w)
    (hb : lib.Vship_ComputeButteraugli hB scoreB dstpB dststrideB
            ![s0, s1, s2] ![d0, d1, d2] ![ls0, ls1, ls2] ![ld0, ld1, ld2]
            (lib.Vship_ComputeButteraugli hB scoreB dstpB dststrideB
              ![s0, s1, s2] ![d0, d1, d2] ![ls0, ls1, ls2]
              ![ld0, ld1, ld2] w).2
          = lib.Vship_ComputeButteraugli hB scoreB dstpB dststrideB
              ![s0, s1, s2] ![d0, d1, d2] ![ls0, ls1, ls2]
              ![ld0, ld1, ld2] w) :
    (∀ e w1, ComputeSSIMU2_flat lib (some hS) score s0 s1 s2 ls0 ls1 ls2
          d0 d1 d2 ld0 ld1 ld2 w = some (e, w1) →
        ComputeSSIMU2_flat lib (some hS) score s0 s1 s2 ls0 ls1 ls2
          d0 d1 d2 ld0 ld1 ld2 w1 = some (e, w1)) ∧
    (∀ e w1, ComputeButteraugli_flat lib (some hB) scoreB dstpB dststrideB
          s0 s1 s2 d0 d1 d2 ls0 ls1 ls2 ld0 ld1 ld2 w = some (e, w1) →
        ComputeButteraugli_flat lib (some hB) scoreB dstpB dststrideB
          s0 s1 s2 d0 d1 d2 ls0 ls1 ls2 ld0 ld1 ld2 w1 = some (e, w1)) := by
  constructor
  · intro e w1 h1
    have h1' : lib.Vship_ComputeSSIMU2 hS score ![s0, s1, s2] ![d0, d1, d2]
        ![ls0, ls1, ls2] ![ld0, ld1, ld2] w = (e, w1) :=
      Option.some.inj h1
    show some (lib.Vship_ComputeSSIMU2 hS score ![s0, s1, s2] ![d0, d1, d2]
        ![ls0, ls1, ls2] ![ld0, ld1, ld2] w1) = some (e, w1)
    rw [show w1 = (lib.Vship_ComputeSSIMU2 hS score ![s0, s1, s2]
        ![d0, d1, d2] ![ls0, ls1, ls2] ![ld0, ld1, ld2] w).2 by rw [h1'],
      hs, h1']
  · intro e w1 h1
    have h1' : lib.Vship_ComputeButteraugli hB scoreB dstpB dststrideB
        ![s0, s1, s2] ![d0, d1, d2] ![ls0, ls1, ls2] ![ld0, ld1, ld2] w
        = (e, w1) := Option.some.inj h1
    show some (lib.Vship_ComputeButteraugli hB scoreB dstpB dststrideB
        ![s0, s1, s2] ![d0, d1, d2] ![ls0, ls1, ls2] ![ld0, ld1, ld2] w1)
      = some (e, w1)
    rw [show w1 = (lib.Vship_ComputeButteraugli hB scoreB dstpB dststrideB
        ![s0, s1, s2] ![d0, d1, d2] ![ls0, ls1, ls2]
        ![ld0, ld1, ld2] w).2 by rw [h1'], hb, h1']

/-- Witness for C5 at `demoLib` with handler value 1: the wrapped compute
calls are idempotent there, and a second flattened call starting from the
world the first call produced returns the first call's result again. -/
theorem flattened_compute_idempotent_witness :
    ComputeSSIMU2_flat demoLib (some 1) (some 0) (some 1) (some 2) (some 3)
        4 5 6 (some 7) (some 8) (some 9) 10 11 12 [some 1]
      = some (.NoError, [some 1]) :=
  (flattened_compute_idempotent demoLib 1 1 (some 0) (some 0) (some 20) 2
    (some 1) (some 2) (some 3) (some 7) (some 8) (some 9)
    4 5 6 10 11 12 [] rfl rfl).1 Vship_Exception.NoError [some 1] rfl

/-- The arguments of one temporal frame-pair load: per-plane pointers and
strides for the source and the distorted frame. -/
structure FramePair : Type where
  s0 : Ptr
  s1 : Ptr
  s2 : Ptr
  d0 : Ptr
  d1 : Ptr
  d2 : Ptr
  ls0 : Int
  ls1 : Int
  ls2 : Int
  ld0 : Int
  ld1 : Int
  ld2 : Int

/-- The extra arguments of the final temporal compute call. -/
structure CVVDPComputeArgs : Type where
  score : Ptr
  dstp : Ptr
  dststride : Int
  frame : FramePair

/-- The flattened load call for one frame pair. -/
def loadCall (h : C) (f : FramePair) : FlatCall S B C :=
  .loadTemporal h f.s0 f.s1 f.s2 f.d0 f.d1 f.d2
    f.ls0 f.ls1 f.ls2 f.ld0 f.ld1 f.ld2

/-- A temporal session: load the frame pairs one by one in list order, then
compute the temporal score. -/
def temporalScript (h : C) (frames : List FramePair) (c : CVVDPComputeArgs) :
    List (FlatCall S B C) :=
  frames.map (loadCall h) ++
    [.computeCVVDP h c.score c.dstp c.dststride
      c.frame.s0 c.frame.s1 c.frame.s2 c.frame.d0 c.frame.d1 c.frame.d2
      c.frame.ls0 c.frame.ls1 c.frame.ls2 c.frame.ld0 c.frame.ld1 c.frame.ld2]

/-- C6: a sequence of flattened temporal loads followed by a flattened
compute behaves exactly like the same sequence of direct native calls, so
the wrapped library observes the frame pairs in submission order; and
whenever the native path distinguishes two submission orders, the flattened
path distinguishes them as well — it cannot return the original order's
result for a reordered submission. -/
theorem temporal_order_preserved (lib : VshipLib S B C W) (h : C)
    (frames frames' : List FramePair) (c : CVVDPComputeArgs) (w : W) :
    runFlat lib (temporalScript h frames c) w
      = some (runNative lib (temporalScript h frames c) w) ∧
    (runNative lib (temporalScript h frames c) w
        ≠ runNative lib (temporalScript h frames' c) w →
      runFlat lib (temporalScript h frames c) w
        ≠ runFlat lib (temporalScript h frames' c) w) := by
  refine ⟨runFlat_eq lib _ w, fun hne => ?_⟩
  rw [runFlat_eq lib _ w, runFlat_eq lib _ w]
  simp only [ne_eq, Option.some.injEq]
  exact hne

/-- A first demonstration frame pair (monochrome: planes 1 and 2 null). -/
def frameA : FramePair :=
  ⟨some 1, none, none, some 4, none, none, 7, 0, 0, 8, 0, 0⟩

/-- A second demonstration frame pair, distinct from `frameA`. -/
def frameB : FramePair :=
  ⟨some 2, none, none, some 5, none, none, 7, 0, 0, 8, 0, 0⟩

/-- Demonstration arguments for the final temporal compute call. -/
def demoComputeArgs : CVVDPComputeArgs := ⟨some 30, some 31, 9, frameA⟩

/-- Witness for C6 at `demoLib`: submitting `frameA, frameB` and submitting
`frameB, frameA` produce different flattened results, because the native
path distinguishes the two orders. -/
theorem temporal_order_preserved_witness :
    runFlat demoLib (temporalScript 1 [frameA, frameB] demoComputeArgs) []
      ≠ runFlat demoLib (temporalScript 1 [frameB, frameA] demoComputeArgs)
          [] :=
  (temporal_order_preserved demoLib 1 [frameA, frameB] [frameB, frameA]
    demoComputeArgs []).2 (by decide)

/-- C7: if the wrapped library designates the supplied (destroyed or
zero-initialized) handler value as invalid — returning its invalid-handle
status `BadHandler` for it — then every flattened operation returns exactly
that status and completes normally (it yields a defined `some` result, not
the undefined crash outcome `none`). -/
theorem invalid_handler_status (lib : VshipLib S B C W) (hS : S) (hB : B)
    (hC : C) (score scoreB scoreC dstpB dstpC : Ptr)
    (dststrideB dststrideC : Int)
    (s0 s1 s2 d0 d1 d2 : Ptr) (ls0 ls1 ls2 ld0 ld1 ld2 : Int) (w : W)
    (h1 : (lib.Vship_ComputeSSIMU2 hS score ![s0, s1, s2] ![d0, d1, d2]
        ![ls0, ls1, ls2] ![ld0, ld1, ld2] w).1 = .BadHandler)
    (h2 : (lib.Vship_ComputeButteraugli hB scoreB dstpB dststrideB
        ![s0, s1, s2] ![d0, d1, d2] ![ls0, ls1, ls2] ![ld0, ld1, ld2] w).1
        = .BadHandler)
    (h3 : (lib.Vship_LoadTemporalCVVDP hC ![s0, s1, s2] ![d0, d1, d2]
        ![ls0, ls1, ls2] ![ld0, ld1, ld2] w).1 = .BadHandler)
    (h4 : (lib.Vship_ComputeCVVDP hC scoreC dstpC dststrideC ![s0, s1, s2]
        ![d0, d1, d2] ![ls0, ls1, ls2] ![ld0, ld1, ld2] w).1
        = .BadHandler) :
    (ComputeSSIMU2_flat lib (some hS) score s0 s1 s2 ls0 ls1 ls2
        d0 d1 d2 ld0 ld1 ld2 w).map Prod.fst
      = some Vship_Exception.BadHandler ∧
    (ComputeButteraugli_flat lib (some hB) scoreB dstpB dststrideB
        s0 s1 s2 d0 d1 d2 ls0 ls1 ls2 ld0 ld1 ld2 w).map Prod.fst
      = some Vship_Exception.BadHandler ∧
    (LoadTemporalCVVDP_flat lib (some hC) s0 s1 s2 d0 d1 d2
        ls0 ls1 ls2 ld0 ld1 ld2 w).map Prod.fst
      = some Vship_Exception.BadHandler ∧
    (ComputeCVVDP_flat lib (some hC) scoreC dstpC dststrideC
        s0 s1 s2 d0 d1 d2 ls0 ls1 ls2 ld0 ld1 ld2 w).map Prod.fst
      = some Vship_Exception.BadHandler := by
  refine ⟨?_, ?_, ?_, ?_⟩
  · rw [← h1]; rfl
  · rw [← h2]; rfl
  · rw [← h3]; rfl
  · rw [← h4]; rfl

/-- Witness for C7 at `demoLib`, whose handler value 0 plays the part of a
destroyed / zero-initialized handler: the flattened single-pass compute
returns the invalid-handle status without crashing. -/
theorem invalid_handler_status_witness :
    (ComputeSSIMU2_flat demoLib (some 0) (some 0) (some 1) (some 2) (some 3)
        4 5 6 (some 7) (some 8) (some 9) 10 11 12 []).map Prod.fst
      = some Vship_Exception.BadHandler :=
  (invalid_handler_status demoLib 0 0 0 (some 0) (some 0) (some 0) (some 20)
    (some 21) 2 2 (some 1) (some 2) (some 3) (some 7) (some 8) (some 9)
    4 5 6 10 11 12 [] rfl rfl rfl rfl).1

/-- C8: a single-plane (monochrome) input whose plane-1 and plane-2
pointers are NULL is forwarded to the wrapped library with those null
markers unchanged at array indices 1 and 2, and each flattened operation
still completes with a defined result (the adapter never dereferences the
plane pointers). -/
theorem null_planes_forwarded (lib : VshipLib S B C W) (hS : S) (hB : B)
    (hC : C) (score scoreB scoreC dstpB dstpC : Ptr)
    (dststrideB dststrideC : Int)
    (s0 d0 : Ptr) (ls0 ls1 ls2 ld0 ld1 ld2 : Int) (w : W) :
    ((![s0, none, none] : Planes) 1 = none ∧
     (![s0, none, none] : Planes) 2 = none ∧
     (![d0, none, none] : Planes) 1 = none ∧
     (![d0, none, none] : Planes) 2 = none) ∧
    ComputeSSIMU2_flat lib (some hS) score s0 none none ls0 ls1 ls2
        d0 none none ld0 ld1 ld2 w
      = some (lib.Vship_ComputeSSIMU2 hS score ![s0, none, none]
          ![d0, none, none] ![ls0, ls1, ls2] ![ld0, ld1, ld2] w) ∧
    ComputeButteraugli_flat lib (some hB) scoreB dstpB dststrideB
        s0 none none d0 none none ls0 ls1 ls2 ld0 ld1 ld2 w
      = some (lib.Vship_ComputeButteraugli hB scoreB dstpB dststrideB
          ![s0, none, none] ![d0, none, none] ![ls0, ls1, ls2]
          ![ld0, ld1, ld2] w) ∧
    LoadTemporalCVVDP_flat lib (some hC) s0 none none d0 none none
        ls0 ls1 ls2 ld0 ld1 ld2 w
      = some (lib.Vship_LoadTemporalCVVDP hC ![s0, none, none]
          ![d0, none, none] ![ls0, ls1, ls2] ![ld0, ld1, ld2] w) ∧
    ComputeCVVDP_flat lib (some hC) scoreC dstpC dststrideC
        s0 none none d0 none none ls0 ls1 ls2 ld0 ld1 ld2 w
      = some (lib.Vship_ComputeCVVDP hC scoreC dstpC dststrideC
          ![s0, none, none] ![d0, none, none] ![ls0, ls1, ls2]
          ![ld0, ld1, ld2] w) :=
  ⟨⟨rfl, rfl, rfl, rfl⟩, rfl, rfl, rfl, rfl⟩

/-- C9: the adapter adds no observable effect of its own: any property of
the world that holds after the single wrapped native call holds after the
flattened call — every write to a caller-visible location (score,
destination map, handler state) comes from the wrapped library, the adapter
itself touching nothing beyond its call-scoped local arrays. -/
theorem adapter_no_extra_effects (lib : VshipLib S B C W) (P : W → Prop)
    (hS : S) (hB : B) (hC : C) (score scoreB scoreC dstpB dstpC : Ptr)
    (dststrideB dststrideC : Int)
    (s0 s1 s2 d0 d1 d2 : Ptr) (ls0 ls1 ls2 ld0 ld1 ld2 : Int) (w : W)
    (hPS : P ((lib.Vship_ComputeSSIMU2 hS score ![s0, s1, s2] ![d0, d1, d2]
        ![ls0, ls1, ls2] ![ld0, ld1, ld2] w).2))
    (hPB : P ((lib.Vship_ComputeButteraugli hB scoreB dstpB dststrideB
        ![s0, s1, s2] ![d0, d1, d2] ![ls0, ls1, ls2] ![ld0, ld1, ld2] w).2))
    (hPL : P ((lib.Vship_LoadTemporalCVVDP hC ![s0, s1, s2] ![d0, d1, d2]
        ![ls0, ls1, ls2] ![ld0, ld1, ld2] w).2))
    (hPC : P ((lib.Vship_ComputeCVVDP hC scoreC dstpC dststrideC
        ![s0, s1, s2] ![d0, d1, d2] ![ls0, ls1, ls2]
        ![ld0, ld1, ld2] w).2)) :
    (∀ e w1, ComputeSSIMU2_flat lib (some hS) score s0 s1 s2 ls0 ls1 ls2
        d0 d1 d2 ld0 ld1 ld2 w = some (e, w1) → P w1) ∧
    (∀ e w1, ComputeButteraugli_flat lib (some hB) scoreB dstpB dststrideB
        s0 s1 s2 d0 d1 d2 ls0 ls1 ls2 ld0 ld1 ld2 w = some (e, w1) →
        P w1) ∧
    (∀ e w1, LoadTemporalCVVDP_flat lib (some hC) s0 s1 s2 d0 d1 d2
        ls0 ls1 ls2 ld0 ld1 ld2 w = some (e, w1) → P w1) ∧
    (∀ e w1, ComputeCVVDP_flat lib (some hC) scoreC dstpC dststrideC
        s0 s1 s2 d0 d1 d2 ls0 ls1 ls2 ld0 ld1 ld2 w = some (e, w1) →
        P w1) := by
  refine ⟨fun e w1 hcall => ?_, fun e w1 hcall => ?_, fun e w1 hcall => ?_,
    fun e w1 hcall => ?_⟩
  · rw [Option.some.inj hcall] at hPS; exact hPS
  · rw [Option.some.inj hcall] at hPB; exact hPB
  · rw [Option.some.inj hcall] at hPL; exact hPL
  · rw [Option.some.inj hcall] at hPC; exact hPC

/-- Witness for C9 at `demoLib` with the property that the event log is the
one-element list the wrapped call leaves behind: the flattened call's output
world satisfies it. -/
theorem adapter_no_extra_effects_witness :
    ([some 9] : List Ptr) = [some 9] :=
  (adapter_no_extra_effects demoLib (fun l => l = [some 9]) 1 1 1 (some 0)
    (some 0) (some 0) (some 20) (some 21) 2 2 (some 9) (some 2) (some 3)
    (some 7) (some 8) (some 6) 4 5 6 10 11 12 [] rfl rfl rfl rfl).1
    Vship_Exception.NoError [some 9] rfl

/-- C10: every flattened operation dereferences its handler pointer before
the wrapped library is invoked: with a NULL handler pointer the call has no
defined result (`none`) for every possible wrapped library, so the library
is never consulted and a non-null handler pointer is a precondition of the
shim itself. -/
theorem null_handler_dereferenced (lib : VshipLib S B C W)
    (score scoreB scoreC dstpB dstpC : Ptr) (dststrideB dststrideC : Int)
    (s0 s1 s2 d0 d1 d2 : Ptr) (ls0 ls1 ls2 ld0 ld1 ld2 : Int) (w : W) :
    ComputeSSIMU2_flat lib none score s0 s1 s2 ls0 ls1 ls2
        d0 d1 d2 ld0 ld1 ld2 w = none ∧
    ComputeButteraugli_flat lib none scoreB dstpB dststrideB
        s0 s1 s2 d0 d1 d2 ls0 ls1 ls2 ld0 ld1 ld2 w = none ∧
    LoadTemporalCVVDP_flat lib none s0 s1 s2 d0 d1 d2
        ls0 ls1 ls2 ld0 ld1 ld2 w = none ∧
    ComputeCVVDP_flat lib none scoreC dstpC dststrideC
        s0 s1 s2 d0 d1 d2 ls0 ls1 ls2 ld0 ld1 ld2 w = none :=
  ⟨rfl, rfl, rfl, rfl⟩
